import Mathlib

/-!
Verification development for the React Native reproducer repository:
a themed `Button` component and a modal-based `Alert` system
(`alert.tsx`, `alert-content.tsx`, and the unnamed button component file).

The components are shallowly embedded: each render function becomes a pure
Lean function from its props (and, where relevant, its hook state) to a
record describing the element tree it produces; layout callbacks become
explicit state-transition functions, and a mount is modelled as a trace of
layout events folded through those transitions.
-/

namespace Reproducer

/-! ## Alert (`src/ReproducerApp/src/components/alert/alert.tsx`)

`Alert` destructures `visible`, `onChange`, `children`, `dismissable` and
`isLoading` from its props; every remaining prop is collected in
`modalProps` and spread onto the host `Modal` AFTER the props `Alert` sets
itself.  Its two callbacks are `onShow = () => onChange?.(true)` and
`onHide = () => onChange?.(false)`; `providerValue = { dismiss: onHide }`.
-/

/-- A handler value that can be wired to the host modal.  `alertOnHide` and
`alertOnShow` are the two callbacks `Alert` creates itself (`onHide` and
`onShow` in the source); `supplied i` stands for an opaque caller-provided
function arriving through the passthrough `modalProps`. -/
inductive AlertHandler where
  | alertOnHide
  | alertOnShow
  | supplied (id : Nat)
  deriving DecidableEq

/-- The calls to `onChange` a handler performs when invoked, as the list of
arguments passed.  `onHide` runs `onChange?.(false)`: one call with `false`
when `onChange` is present, none otherwise; symmetrically for `onShow`.
A caller-supplied handler is opaque to `Alert` and performs no call to the
`onChange` that `Alert` received. -/
def runAlertHandler (onChangePresent : Bool) : AlertHandler → List Bool
  | .alertOnHide => if onChangePresent then [false] else []
  | .alertOnShow => if onChangePresent then [true] else []
  | .supplied _ => []

/-- The content rendered inside the host modal: the
`LoadingIndicatorOverlay`, or the `AlertContainer` wrapping the backdrop
(with its `dismissable` flag) and the children. -/
inductive AlertBody where
  | loadingOverlay
  | container (visible : Bool) (dismissable : Option Bool)
  deriving DecidableEq

/-- The five host-modal options named by the spec that a caller can place in
the passthrough `modalProps`; `none` means the caller did not supply the
option.  (`visible` itself is destructured out of the props and can never
reach the spread.) -/
structure ModalPassthrough where
  onRequestClose : Option AlertHandler := none
  onShow : Option AlertHandler := none
  onDismiss : Option AlertHandler := none
  transparent : Option Bool := none
  presentationStyle : Option String := none
  deriving DecidableEq

/-- The props of the host `Modal` element after the JSX spread
`{...modalProps}`, which overrides the values `Alert` set before it. -/
structure AlertModalRender where
  presentationStyle : String
  transparent : Bool
  visible : Bool
  onRequestClose : AlertHandler
  onShow : AlertHandler
  onDismiss : AlertHandler
  deriving DecidableEq

/-- The full element tree produced by one render of `Alert`: the context
`providerValue` (its `dismiss` capability), the host modal props, and the
modal content. -/
structure AlertRender where
  dismiss : AlertHandler
  modal : AlertModalRender
  content : AlertBody
  deriving DecidableEq

/-- One render of `Alert`, from `alert.tsx` lines 18-49.  `isLoading` is an
optional boolean prop, so the guard `visible || isLoading === true` and the
truthiness test `isLoading ? ... : ...` both hold exactly when `isLoading`
is `some true`. -/
def alertRender (visible : Bool) (isLoading : Option Bool) (dismissable : Option Bool)
    (modalProps : ModalPassthrough) : AlertRender :=
  let onHide := AlertHandler.alertOnHide
  let onShow := AlertHandler.alertOnShow
  { dismiss := onHide
    modal :=
      { presentationStyle := modalProps.presentationStyle.getD "overFullScreen"
        transparent := modalProps.transparent.getD true
        visible := visible || (isLoading == some true)
        onRequestClose := modalProps.onRequestClose.getD onHide
        onShow := modalProps.onShow.getD onShow
        onDismiss := modalProps.onDismiss.getD onHide }
    content :=
      if isLoading == some true then .loadingOverlay
      else .container visible dismissable }

/-! ## AlertContent (`src/ReproducerApp/src/components/alert/alert-content.tsx`)

The component keeps one piece of state, `contentHeight`, initialised to `0`.
While it is `0` the render is a plain `View` carrying the `onLayout`
callback (which stores the measured height); once it is nonzero the render
is a `ScrollView` with `maxHeight` equal to the stored height, and no
`onLayout` callback is attached, so no further layout event can fire. -/

/-- The element `AlertContent` renders for a given `contentHeight` state:
a measuring plain `View` while the height state is `0`, otherwise a
`ScrollView` capped at `maxHeight`. -/
inductive AlertContentView where
  | plainView
  | scrollView (maxHeight : ℚ)
  deriving DecidableEq

/-- Render of `AlertContent` as a function of its `contentHeight` state
(`alert-content.tsx` lines 25-45). -/
def alertContentRender (contentHeight : ℚ) : AlertContentView :=
  if contentHeight = 0 then .plainView else .scrollView contentHeight

/-- The `onLayout` callback: `setContentHeight(evt.nativeEvent.layout.height)`. -/
def alertContentOnLayout (height : ℚ) : ℚ := height

/-- One step of the `AlertContent` state machine on a layout event carrying
the measured height.  The callback is attached only in the plain-`View`
phase; in the `ScrollView` phase no handler is mounted, so the event leaves
the state unchanged. -/
def alertContentStep (contentHeight : ℚ) (height : ℚ) : ℚ :=
  match alertContentRender contentHeight with
  | .plainView => alertContentOnLayout height
  | .scrollView _ => contentHeight

/-- The `contentHeight` state after a mount delivering the given sequence of
layout events, starting from the initial `useState(0)`. -/
def alertContentRun (events : List ℚ) : ℚ :=
  events.foldl alertContentStep 0

/-- The first nonzero measured height in a sequence of layout events, if
any: the value at which `AlertContent` switches to its scrolling phase. -/
def firstNonzeroHeight : List ℚ → Option ℚ
  | [] => none
  | h :: rest => if h = 0 then firstNonzeroHeight rest else some h

/-! ## Button (unnamed source file `src/unnamed/part_000`)

Colors are `ColorValue` strings and opacities plain numbers in the source;
we embed colors as `String` and opacities as `ℚ`, with `Option` for the
`| undefined` parts.  The `variant`, `modifier`, `widthOption`,
`colorScheme` and `iconPosition` props are TypeScript string-literal
unions, embedded as `String`. -/

/-- Modelled from the spec: the `ButtonColors` record from `theme/types`
(not under `src/`): named color fields per interaction state
(default / pressed / disabled) for container background, border, shadow and
text, plus opacity values.  Optionality of each field follows its use in
the button component (`??` fallbacks and `=== undefined` checks). -/
structure ButtonColors where
  containerBackground : Option String := none
  containerBackgroundPressed : Option String := none
  containerBackgroundDisabled : Option String := none
  containerBorder : Option String := none
  containerBorderPressed : Option String := none
  containerBorderDisabled : Option String := none
  shadow : Option String := none
  shadowPressed : Option String := none
  shadowDisabled : Option String := none
  text : Option String := none
  pressedText : Option String := none
  disabledText : Option String := none
  opacity : Option ℚ := none
  opacityPressed : Option ℚ := none
  opacityDisabled : Option ℚ := none
  deriving DecidableEq

/-- TypeScript nullish coalescing `a ?? b` on optional values. -/
def orD {α : Type} (a b : Option α) : Option α :=
  match a with
  | some v => some v
  | none => b

/-- The `buttonColors` memo (lines 70-80): an explicit `buttonColorOverrides`
is returned as-is; otherwise the color-scheme picks the dark or light
variant table and the record is looked up by `buttonVariant`.  The two
tables live in `theme/dark/color-mappings` and `theme/light/color-mappings`
(outside `src/`), so they are parameters here. -/
def buttonColors (buttonColorOverrides : Option ButtonColors) (colorScheme : String)
    (buttonVariant : String)
    (darkButtonColorMappings lightButtonColorMappings : String → ButtonColors) : ButtonColors :=
  match buttonColorOverrides with
  | some overrides => overrides
  | none =>
    if colorScheme = "dark" then darkButtonColorMappings buttonVariant
    else lightButtonColorMappings buttonVariant

/-- The dynamic part of the container style object pushed by
`buttonContainerStyle` (line 107): background color, border color and
opacity resolved from the interaction state. -/
structure ContainerColorsResolved where
  backgroundColor : Option String
  borderColor : Option String
  opacity : Option ℚ
  deriving DecidableEq

/-- Color/opacity resolution of `buttonContainerStyle` (lines 88-101):
`disabled` first, then `pressed`, then the base values; the two colors fall
back to the base color via `??`, the opacity is taken from the matching
field directly. -/
def resolveContainerColors (colors : ButtonColors) (disabled pressed : Bool) :
    ContainerColorsResolved :=
  if disabled then
    { backgroundColor := orD colors.containerBackgroundDisabled colors.containerBackground
      borderColor := orD colors.containerBorderDisabled colors.containerBorder
      opacity := colors.opacityDisabled }
  else if pressed then
    { backgroundColor := orD colors.containerBackgroundPressed colors.containerBackground
      borderColor := orD colors.containerBorderPressed colors.containerBorder
      opacity := colors.opacityPressed }
  else
    { backgroundColor := colors.containerBackground
      borderColor := colors.containerBorder
      opacity := colors.opacity }

/-- The outcome of `buttonContainerStyle` (lines 82-117): the resolved
colors together with whether the extra `{ borderWidth: 0 }` entry was
pushed (lines 110-112).  The static entries (`buttonContainer`, the
modifier size, the width option, `bodyStyleOverrides`) come from opaque
style tables and are not part of any claim. -/
structure ContainerStyle where
  resolved : ContainerColorsResolved
  borderWidthZero : Bool
  deriving DecidableEq

/-- `buttonContainerStyle` for a pressable state. -/
def buttonContainerStyle (colors : ButtonColors) (disabled pressed : Bool) : ContainerStyle :=
  let resolved := resolveContainerColors colors disabled pressed
  { resolved := resolved
    borderWidthZero := resolved.borderColor.isNone }

/-- Modelled from the spec: the `noShadow` style constant exported by
`button-style` (not under `src/`): the shadow bundle collapses to a
zero-size, transparent sentinel. -/
structure NoShadowSentinel where
  height : ℚ
  width : ℚ
  backgroundColor : String
  deriving DecidableEq

/-- Modelled from the spec: the concrete `noShadow` value
(zero height, zero width, transparent background). -/
def noShadow : NoShadowSentinel :=
  { height := 0, width := 0, backgroundColor := "transparent" }

/-- Shadow color resolution of `buttonShadowStyle` (lines 121-131):
`disabled` first, then `pressed`, each falling back to the base `shadow`
color via `??`. -/
def resolveShadowColor (colors : ButtonColors) (disabled pressed : Bool) : Option String :=
  if disabled then orD colors.shadowDisabled colors.shadow
  else if pressed then orD colors.shadowPressed colors.shadow
  else colors.shadow

/-- Opacity resolution of `buttonShadowStyle` (lines 121-131): the matching
opacity field, with no fallback. -/
def resolveShadowOpacity (colors : ButtonColors) (disabled pressed : Bool) : Option ℚ :=
  if disabled then colors.opacityDisabled
  else if pressed then colors.opacityPressed
  else colors.opacity

/-- The outcome of `buttonShadowStyle`: either the `noShadow` sentinel
(returned when the resolved shadow color is `undefined`, lines 133-135), or
the layered style `[shadow, { backgroundColor, opacity }, size, width]`
whose dynamic part is the background color and opacity. -/
inductive ShadowStyle where
  | sentinel (value : NoShadowSentinel)
  | layered (backgroundColor : String) (opacity : Option ℚ)
  deriving DecidableEq

/-- `buttonShadowStyle` for a pressable state (lines 119-150). -/
def buttonShadowStyle (colors : ButtonColors) (disabled pressed : Bool) : ShadowStyle :=
  match resolveShadowColor colors disabled pressed with
  | none => .sentinel noShadow
  | some backgroundColor => .layered backgroundColor (resolveShadowOpacity colors disabled pressed)

/-- Text color resolution of `buttonTextStyle` (lines 156-161): the same
disabled-then-pressed-then-base chain, with `??` fallback to the base
`text` color. -/
def resolveTextColor (colors : ButtonColors) (disabled pressed : Bool) : Option String :=
  if disabled then orD colors.disabledText colors.text
  else if pressed then orD colors.pressedText colors.text
  else colors.text

/-- The props of `Button` that are plain data (the `onPress` callback and
the style-table imports are omitted; they play no role in any claim).
Defaults follow the destructuring defaults in lines 43-58. -/
structure ButtonProps where
  i18nKey : String
  i18nParams : Option String := none
  testID : Option String := none
  variant : String := "primary"
  widthOption : String := "stretch"
  modifier : String := "default"
  disabled : Bool := false
  buttonColorOverrides : Option ButtonColors := none
  iconSource : Option String := none
  iconPosition : String := "right"
  accessibilityHint : Option String := none
  deriving DecidableEq

/-- Line 177: `const iconSize = modifier === 'small' ? 20 : 24`. -/
def buttonIconSize (props : ButtonProps) : Nat :=
  if props.modifier = "small" then 20 else 24

/-! ### Button layout / shadow synchronisation

`Button` keeps two state cells, `buttonContainerHeight` and
`buttonContainerWidth`, both initialised to `undefined`.  The container
`View` carries `onLayoutButtonContainer` on every render, and that callback
stores `Math.floor` of the measured height and width.  The shadow `View` is
styled with `{ height: buttonContainerHeight, width: buttonContainerWidth }`
(line 213). -/

/-- The measured-layout state of a mounted `Button` (lines 190-191). -/
structure ButtonLayoutState where
  buttonContainerHeight : Option Int
  buttonContainerWidth : Option Int
  deriving DecidableEq

/-- The initial state: both cells `useState(undefined)`. -/
def buttonLayoutInit : ButtonLayoutState :=
  { buttonContainerHeight := none, buttonContainerWidth := none }

/-- `onLayoutButtonContainer` (lines 193-198) on a layout event carrying the
measured `(height, width)`: stores `Math.floor` of each, regardless of the
previous state (the container always carries the callback, line 214). -/
def onLayoutButtonContainer (state : ButtonLayoutState) (event : ℚ × ℚ) : ButtonLayoutState :=
  let _ := state
  { buttonContainerHeight := some (Int.floor event.1)
    buttonContainerWidth := some (Int.floor event.2) }

/-- The layout state after a mount delivering the given sequence of
container layout events. -/
def buttonLayoutRun (events : List (ℚ × ℚ)) : ButtonLayoutState :=
  events.foldl onLayoutButtonContainer buttonLayoutInit

/-- The dimensions applied to the shadow layer `View` on a render with the
given layout state (line 213): exactly the two state cells. -/
def shadowLayerDims (state : ButtonLayoutState) : Option Int × Option Int :=
  (state.buttonContainerHeight, state.buttonContainerWidth)

/-! ## Theorems -/

/-- Once the `contentHeight` state is nonzero the `ScrollView` phase carries
no `onLayout` handler, so every further event leaves the state unchanged. -/
theorem alertContent_foldl_frozen (events : List ℚ) (s : ℚ) (hs : s ≠ 0) :
    events.foldl alertContentStep s = s := by
  induction events with
  | nil => rfl
  | cons e rest ih =>
    have hstep : alertContentStep s e = s := by
      unfold alertContentStep alertContentRender
      rw [if_neg hs]
    rw [List.foldl_cons, hstep, ih]

/-- While every delivered height is zero, the state stays at the sentinel
`0`. -/
theorem alertContent_foldl_all_zero (events : List ℚ) (hz : ∀ h ∈ events, h = 0) :
    events.foldl alertContentStep 0 = 0 := by
  induction events with
  | nil => rfl
  | cons e rest ih =>
    have he : e = 0 := hz e (List.mem_cons_self e rest)
    have hstep : alertContentStep 0 e = e := by
      unfold alertContentStep alertContentRender alertContentOnLayout
      rw [if_pos rfl]
    rw [List.foldl_cons, hstep, he]
    exact ih fun h hm => hz h (List.mem_cons_of_mem e hm)

/-- C4: `AlertContent` renders the non-scrolling `View` while its measured
height state is `0` (in particular as long as every layout event reported
height `0`), and as soon as a layout event reports the first nonzero height
it renders the `ScrollView` with `maxHeight` equal to that first nonzero
height; no later layout event (any continuation of the trace) ever returns
it to the non-scrolling phase or changes the cap. -/
theorem alertContent_two_phase (events more : List ℚ) (h0 : ℚ) :
    ((∀ h ∈ events, h = 0) →
      alertContentRender (alertContentRun events) = .plainView) ∧
    (firstNonzeroHeight events = some h0 →
      alertContentRender (alertContentRun (events ++ more)) = .scrollView h0) := by
  constructor
  · intro hz
    unfold alertContentRun
    rw [alertContent_foldl_all_zero events hz]
    unfold alertContentRender
    rw [if_pos rfl]
  · intro hfind
    induction events with
    | nil => exact absurd hfind (by simp [firstNonzeroHeight])
    | cons e rest ih =>
      unfold firstNonzeroHeight at hfind
      by_cases he : e = 0
      · rw [if_pos he] at hfind
        have hstep : alertContentStep 0 e = 0 := by
          unfold alertContentStep alertContentRender alertContentOnLayout
          rw [if_pos rfl]
          exact he
        have := ih hfind
        unfold alertContentRun at this ⊢
        rw [List.cons_append, List.foldl_cons, hstep]
        exact this
      · rw [if_neg he] at hfind
        have he0 : h0 = e := by
          have := Option.some.inj hfind
          exact this.symm
        have hstep : alertContentStep 0 e = e := by
          unfold alertContentStep alertContentRender alertContentOnLayout
          rw [if_pos rfl]
        unfold alertContentRun
        rw [List.cons_append, List.foldl_cons, hstep,
          alertContent_foldl_frozen (rest ++ more) e he]
        unfold alertContentRender
        rw [if_neg he, he0]

/-- Witness for C4 at a concrete trace: all-zero events keep the plain
view, and the trace `[0, 3, 5]` followed by a further event `7` shows the
scroll view capped at the first nonzero height `3`. -/
theorem alertContent_two_phase_witness :
    alertContentRender (alertContentRun [0, 0]) = .plainView ∧
    alertContentRender (alertContentRun ([0, 3, 5] ++ [7])) = .scrollView 3 :=
  ⟨(alertContent_two_phase [0, 0] [] 1).1 (by decide),
   (alertContent_two_phase [0, 3, 5] [7] 3).2 (by decide)⟩

/-- C1: the host modal of `Alert` is shown exactly when `visible` is `true`
or `isLoading` is `true`, and whenever `isLoading` is `true` the rendered
content is the loading overlay — not the backdrop/children container —
regardless of `visible` and of every other prop. -/
theorem alert_modal_visibility_and_loading_content (visible : Bool)
    (isLoading : Option Bool) (dismissable : Option Bool)
    (modalProps : ModalPassthrough) :
    ((alertRender visible isLoading dismissable modalProps).modal.visible = true ↔
      visible = true ∨ isLoading = some true) ∧
    (isLoading = some true →
      (alertRender visible isLoading dismissable modalProps).content =
        .loadingOverlay) := by
  constructor
  · simp [alertRender]
  · intro h
    simp [alertRender, h]

/-- Witness for C1: with `visible = false` and `isLoading = some true` the
modal is shown and the content is the loading overlay. -/
theorem alert_modal_visibility_and_loading_content_witness :
    (alertRender false (some true) none {}).modal.visible = true ∧
    (alertRender false (some true) none {}).content = .loadingOverlay :=
  ⟨(alert_modal_visibility_and_loading_content false (some true) none {}).1.mpr
      (Or.inr rfl),
   (alert_modal_visibility_and_loading_content false (some true) none {}).2 rfl⟩

/-- C6: the `dismiss` capability placed in the context provider value is
the very same handler (`onHide`) that `Alert` wires to the host close
events `onRequestClose` and `onDismiss`, so invoking any of them performs
the identical `onChange(false)` call (one call with `false` when `onChange`
is present). -/
theorem alert_dismiss_is_host_close_handler (visible : Bool)
    (isLoading : Option Bool) (dismissable : Option Bool) (onChangePresent : Bool) :
    (alertRender visible isLoading dismissable {}).dismiss =
      (alertRender visible isLoading dismissable {}).modal.onRequestClose ∧
    (alertRender visible isLoading dismissable {}).dismiss =
      (alertRender visible isLoading dismissable {}).modal.onDismiss ∧
    runAlertHandler onChangePresent
        (alertRender visible isLoading dismissable {}).dismiss =
      runAlertHandler onChangePresent
        (alertRender visible isLoading dismissable {}).modal.onRequestClose ∧
    runAlertHandler true (alertRender visible isLoading dismissable {}).dismiss =
      [false] :=
  ⟨rfl, rfl, rfl, rfl⟩

/-- C10: the passthrough props are spread after the values `Alert` sets
itself, so each of `onRequestClose`, `onShow`, `onDismiss`, `transparent`
and `presentationStyle`, when supplied, replaces the corresponding value of
`Alert`; in particular a supplied (opaque) `onRequestClose` or `onDismiss`
handler replaces `onHide`, so host-initiated close events no longer perform
the `onChange(false)` call. -/
theorem alert_passthrough_overrides (visible : Bool) (isLoading : Option Bool)
    (dismissable : Option Bool) (modalProps : ModalPassthrough)
    (hc hs hd : AlertHandler) (t : Bool) (p : String) (i j : Nat)
    (onChangePresent : Bool) :
    (modalProps.onRequestClose = some hc →
      (alertRender visible isLoading dismissable modalProps).modal.onRequestClose = hc) ∧
    (modalProps.onShow = some hs →
      (alertRender visible isLoading dismissable modalProps).modal.onShow = hs) ∧
    (modalProps.onDismiss = some hd →
      (alertRender visible isLoading dismissable modalProps).modal.onDismiss = hd) ∧
    (modalProps.transparent = some t →
      (alertRender visible isLoading dismissable modalProps).modal.transparent = t) ∧
    (modalProps.presentationStyle = some p →
      (alertRender visible isLoading dismissable modalProps).modal.presentationStyle = p) ∧
    (modalProps.onRequestClose = some (.supplied i) →
      runAlertHandler onChangePresent
        (alertRender visible isLoading dismissable modalProps).modal.onRequestClose = []) ∧
    (modalProps.onDismiss = some (.supplied j) →
      runAlertHandler onChangePresent
        (alertRender visible isLoading dismissable modalProps).modal.onDismiss = []) := by
  refine ⟨fun h => ?_, fun h => ?_, fun h => ?_, fun h => ?_, fun h => ?_,
    fun h => ?_, fun h => ?_⟩ <;>
    simp [alertRender, h, runAlertHandler]

/-- Witness for C10 at a concrete passthrough record supplying all five
options: each override is in effect and the caller-supplied close handlers
perform no `onChange` call. -/
theorem alert_passthrough_overrides_witness :
    (alertRender true none none
        { onRequestClose := some (.supplied 1), onShow := some (.supplied 2),
          onDismiss := some (.supplied 3), transparent := some false,
          presentationStyle := some "fullScreen" }).modal.onRequestClose =
      .supplied 1 ∧
    (alertRender true none none
        { onRequestClose := some (.supplied 1), onShow := some (.supplied 2),
          onDismiss := some (.supplied 3), transparent := some false,
          presentationStyle := some "fullScreen" }).modal.onShow = .supplied 2 ∧
    (alertRender true none none
        { onRequestClose := some (.supplied 1), onShow := some (.supplied 2),
          onDismiss := some (.supplied 3), transparent := some false,
          presentationStyle := some "fullScreen" }).modal.onDismiss = .supplied 3 ∧
    (alertRender true none none
        { onRequestClose := some (.supplied 1), onShow := some (.supplied 2),
          onDismiss := some (.supplied 3), transparent := some false,
          presentationStyle := some "fullScreen" }).modal.transparent = false ∧
    (alertRender true none none
        { onRequestClose := some (.supplied 1), onShow := some (.supplied 2),
          onDismiss := some (.supplied 3), transparent := some false,
          presentationStyle := some "fullScreen" }).modal.presentationStyle =
      "fullScreen" ∧
    runAlertHandler true
        (alertRender true none none
          { onRequestClose := some (.supplied 1), onShow := some (.supplied 2),
            onDismiss := some (.supplied 3), transparent := some false,
            presentationStyle := some "fullScreen" }).modal.onRequestClose = [] ∧
    runAlertHandler true
        (alertRender true none none
          { onRequestClose := some (.supplied 1), onShow := some (.supplied 2),
            onDismiss := some (.supplied 3), transparent := some false,
            presentationStyle := some "fullScreen" }).modal.onDismiss = [] := by
  refine ⟨?_, ?_, ?_, ?_, ?_, ?_, ?_⟩
  · exact (alert_passthrough_overrides true none none _ (.supplied 1) (.supplied 2)
      (.supplied 3) false "fullScreen" 1 3 true).1 rfl
  · exact (alert_passthrough_overrides true none none _ (.supplied 1) (.supplied 2)
      (.supplied 3) false "fullScreen" 1 3 true).2.1 rfl
  · exact (alert_passthrough_overrides true none none _ (.supplied 1) (.supplied 2)
      (.supplied 3) false "fullScreen" 1 3 true).2.2.1 rfl
  · exact (alert_passthrough_overrides true none none _ (.supplied 1) (.supplied 2)
      (.supplied 3) false "fullScreen" 1 3 true).2.2.2.1 rfl
  · exact (alert_passthrough_overrides true none none _ (.supplied 1) (.supplied 2)
      (.supplied 3) false "fullScreen" 1 3 true).2.2.2.2.1 rfl
  · exact (alert_passthrough_overrides true none none _ (.supplied 1) (.supplied 2)
      (.supplied 3) false "fullScreen" 1 3 true).2.2.2.2.2.1 rfl
  · exact (alert_passthrough_overrides true none none _ (.supplied 1) (.supplied 2)
      (.supplied 3) false "fullScreen" 1 3 true).2.2.2.2.2.2 rfl

/-- C3: when `buttonColorOverrides` is supplied, the resolved `ButtonColors`
record is the override itself, whatever the color scheme, variant and
variant tables are — the theme tables and the variant lookup are never
consulted (the result is invariant under replacing all of them). -/
theorem buttonColors_override_wins (overrides : ButtonColors)
    (colorScheme colorScheme' buttonVariant buttonVariant' : String)
    (darkMap lightMap darkMap' lightMap' : String → ButtonColors) :
    buttonColors (some overrides) colorScheme buttonVariant darkMap lightMap =
      overrides ∧
    buttonColors (some overrides) colorScheme buttonVariant darkMap lightMap =
      buttonColors (some overrides) colorScheme' buttonVariant' darkMap' lightMap' :=
  ⟨rfl, rfl⟩

/-- C2 is false as stated at this colors record: in the disabled branch the
opacity is `opacityDisabled` taken directly, with no `??` fallback, so for
a record with `opacityDisabled` unset and base `opacity = 1/2` the resolved
opacity is `none`, while the claimed disabled-with-fallback value is
`some (1/2)`. -/
theorem button_disabled_opacity_fallback_cex :
    (resolveContainerColors { opacity := some (1/2) } true false).opacity = none ∧
    orD ({ opacity := some (1/2) : ButtonColors }).opacityDisabled
        ({ opacity := some (1/2) : ButtonColors }).opacity = some (1/2) ∧
    (none : Option ℚ) ≠ some (1/2) :=
  ⟨rfl, rfl, fun h => Option.noConfusion h⟩

/-- C2 (amended): for every colors record and pressed flag, when `disabled`
is true the container, shadow and text resolutions use the disabled-variant
colors (each falling back to the base color when unset) and the
disabled-variant opacity taken directly (no fallback to the base opacity),
with the pressed flag having no effect; the pressed-variant values apply
exactly when not disabled. -/
theorem button_disabled_precedence (colors : ButtonColors) (pressed : Bool) :
    resolveContainerColors colors true pressed =
      { backgroundColor := orD colors.containerBackgroundDisabled colors.containerBackground
        borderColor := orD colors.containerBorderDisabled colors.containerBorder
        opacity := colors.opacityDisabled } ∧
    resolveShadowColor colors true pressed = orD colors.shadowDisabled colors.shadow ∧
    resolveShadowOpacity colors true pressed = colors.opacityDisabled ∧
    resolveTextColor colors true pressed = orD colors.disabledText colors.text ∧
    buttonContainerStyle colors true pressed = buttonContainerStyle colors true false ∧
    buttonShadowStyle colors true pressed = buttonShadowStyle colors true false ∧
    resolveContainerColors colors false true =
      { backgroundColor := orD colors.containerBackgroundPressed colors.containerBackground
        borderColor := orD colors.containerBorderPressed colors.containerBorder
        opacity := colors.opacityPressed } ∧
    resolveShadowColor colors false true = orD colors.shadowPressed colors.shadow ∧
    resolveTextColor colors false true = orD colors.pressedText colors.text :=
  ⟨rfl, rfl, rfl, rfl, rfl, rfl, rfl, rfl, rfl⟩

/-- C7: whenever the resolved shadow color is unset, `buttonShadowStyle`
returns the `noShadow` sentinel bundle — zero height and width, transparent
background — rather than omitting the shadow layer. -/
theorem button_shadow_sentinel (colors : ButtonColors) (disabled pressed : Bool)
    (h : resolveShadowColor colors disabled pressed = none) :
    buttonShadowStyle colors disabled pressed = .sentinel noShadow ∧
    noShadow.height = 0 ∧ noShadow.width = 0 ∧
    noShadow.backgroundColor = "transparent" := by
  refine ⟨?_, rfl, rfl, rfl⟩
  unfold buttonShadowStyle
  rw [h]

/-- Witness for C7: the empty colors record resolves no shadow color and
yields the sentinel. -/
theorem button_shadow_sentinel_witness :
    buttonShadowStyle {} false false = .sentinel noShadow ∧
    noShadow.height = 0 ∧ noShadow.width = 0 ∧
    noShadow.backgroundColor = "transparent" :=
  button_shadow_sentinel {} false false rfl

/-- C8: whenever the resolved border color is unset, the container style
bundle includes the pushed `borderWidth: 0` entry. -/
theorem button_border_width_zero (colors : ButtonColors) (disabled pressed : Bool)
    (h : (resolveContainerColors colors disabled pressed).borderColor = none) :
    (buttonContainerStyle colors disabled pressed).borderWidthZero = true := by
  unfold buttonContainerStyle
  simp [h]

/-- Witness for C8: the empty colors record resolves no border color in the
default state and the zero border width entry is pushed. -/
theorem button_border_width_zero_witness :
    (buttonContainerStyle {} false false).borderWidthZero = true :=
  button_border_width_zero {} false false rfl

/-- C9: the icon size handed to the icon renderer is `20` exactly when
`modifier` is `"small"` and `24` otherwise, and any two prop records
agreeing on `modifier` get the same icon size, whatever their other props
are. -/
theorem button_icon_size (p q : ButtonProps) :
    (p.modifier = "small" → buttonIconSize p = 20) ∧
    (p.modifier ≠ "small" → buttonIconSize p = 24) ∧
    (p.modifier = q.modifier → buttonIconSize p = buttonIconSize q) := by
  refine ⟨fun h => ?_, fun h => ?_, fun h => ?_⟩ <;>
    simp [buttonIconSize, h]

/-- Witness for C9 at two concrete prop records that differ in every other
prop but share the default modifier, plus a small-modifier record. -/
theorem button_icon_size_witness :
    buttonIconSize { i18nKey := "a", modifier := "small", disabled := true } = 20 ∧
    buttonIconSize { i18nKey := "b" } = 24 ∧
    buttonIconSize { i18nKey := "c", disabled := true, iconPosition := "left" } =
      buttonIconSize { i18nKey := "d", variant := "secondary" } :=
  ⟨(button_icon_size { i18nKey := "a", modifier := "small", disabled := true }
      { i18nKey := "a", modifier := "small", disabled := true }).1 rfl,
   (button_icon_size { i18nKey := "b" } { i18nKey := "b" }).2.1 (by decide),
   (button_icon_size { i18nKey := "c", disabled := true, iconPosition := "left" }
      { i18nKey := "d", variant := "secondary" }).2.2 rfl⟩

/-- C5 is false as stated: the layout callback stores `Math.floor` of the
measured dimensions, so a measured height of `21/2` is applied to the
shadow layer as `10`, not the exact measured value; and the callback stays
attached on every render, so a second layout event overwrites the first
measurement — the state is not set exactly once. -/
theorem button_layout_exact_once_cex :
    (buttonLayoutRun [((21 : ℚ)/2, 5)]).buttonContainerHeight = some 10 ∧
    ((21 : ℚ)/2 ≠ ((10 : Int) : ℚ)) ∧
    buttonLayoutRun [(3, 4), (7, 8)] ≠ buttonLayoutRun [(3, 4)] := by
  refine ⟨?_, by norm_num, ?_⟩
  · show some (Int.floor ((21 : ℚ)/2)) = some 10
    norm_num
  · have h1 : buttonLayoutRun [(3, 4), (7, 8)] =
        { buttonContainerHeight := some 7, buttonContainerWidth := some 8 } := by
      show ButtonLayoutState.mk (some (Int.floor ((7 : ℚ)))) (some (Int.floor ((8 : ℚ)))) = _
      norm_num
    have h2 : buttonLayoutRun [(3, 4)] =
        { buttonContainerHeight := some 3, buttonContainerWidth := some 4 } := by
      show ButtonLayoutState.mk (some (Int.floor ((3 : ℚ)))) (some (Int.floor ((4 : ℚ)))) = _
      norm_num
    rw [h1, h2]
    intro h
    exact absurd (congrArg ButtonLayoutState.buttonContainerHeight h) (by decide)

/-- C5 (amended): the layout state starts unmeasured (`undefined` height
and width) and every layout event stores the floored measured height and
width, so after the first layout pass it is measured and never reverts to
unmeasured; on the next render the shadow layer receives exactly the stored
floored dimensions of the latest layout event. -/
theorem button_layout_floor_sync (events : List (ℚ × ℚ)) (event : ℚ × ℚ) :
    buttonLayoutRun [] = buttonLayoutInit ∧
    buttonLayoutInit.buttonContainerHeight = none ∧
    buttonLayoutInit.buttonContainerWidth = none ∧
    buttonLayoutRun (events ++ [event]) =
      { buttonContainerHeight := some (Int.floor event.1)
        buttonContainerWidth := some (Int.floor event.2) } ∧
    shadowLayerDims (buttonLayoutRun (events ++ [event])) =
      (some (Int.floor event.1), some (Int.floor event.2)) := by
  have h : buttonLayoutRun (events ++ [event]) =
      { buttonContainerHeight := some (Int.floor event.1)
        buttonContainerWidth := some (Int.floor event.2) } := by
    unfold buttonLayoutRun
    rw [List.foldl_append]
    rfl
  exact ⟨rfl, rfl, rfl, h, by rw [h]; rfl⟩

end Reproducer
